import Mathlib

/-!
Verification of the iced hot-reload engine: a shallow embedding of the
module lifecycle manager (`app_shell/src/shellapp.rs`), the core module
(`app_core/src/lib.rs`) and the shared types (`shared_types/src/lib.rs`),
together with proofs of the specified properties.
-/

namespace HotReload

/-- `shared_types::AppState`: the state snapshot carried across a reload. -/
structure AppState where
  counter : Int
deriving DecidableEq

/-- `shared_types::Message`: all UI events passed between shell and core. -/
inductive Msg
  | Tick
  | Increment
  | Decrement
  | Reload
deriving DecidableEq

/-- 32-bit two's-complement wraparound, modelling Rust release-mode `i32`
arithmetic used for the counter. -/
def wrap32 (n : Int) : Int := (n + 2 ^ 31) % 2 ^ 32 - 2 ^ 31

/-- `app_core::CoreApp::update` (`impl AppInterface for CoreApp`): Increment
and Decrement mutate the counter; Reload and Tick are handled by the shell
and are no-ops here. -/
def coreUpdate (m : Msg) (s : AppState) : AppState :=
  match m with
  | .Increment => { counter := wrap32 (s.counter + 1) }
  | .Decrement => { counter := wrap32 (s.counter - 1) }
  | .Reload => s
  | .Tick => s

/-- A `std::time::SystemTime` modification timestamp: whole seconds since the
Unix epoch plus sub-second nanoseconds. -/
structure Timestamp where
  secs : Nat
  nanos : Nat
deriving DecidableEq

/-- The strict order on `SystemTime` (lexicographic on seconds then
nanoseconds), as used by `modified > self.last_modified` in the Tick
handler. -/
def Timestamp.ltb (a b : Timestamp) : Bool :=
  a.secs < b.secs || (a.secs == b.secs && a.nanos < b.nanos)

/-- `app_core::destroy_app` over an explicit allocation map: instance
handles are naturals, handle `0` is the null pointer, and a live handle is
mapped to the state it owns.  The source frees the box only when the
pointer is non-null (`if !ptr.is_null() { drop(Box::from_raw(ptr)) }`). -/
def destroy_app (ptr : Nat) (heap : Nat → Option AppState) : Nat → Option AppState :=
  if ptr ≠ 0 then fun i => if i = ptr then none else heap i else heap

/-- Host platform, standing for the `cfg!(windows)` / `cfg!(target_os = "macos")`
configuration tests in `shellapp.rs`. -/
inductive Platform
  | windows
  | macos
  | other
deriving DecidableEq

/-- The platform extension chosen by `make_lib_path`: `dll` on Windows,
`dylib` on macOS, `so` otherwise. -/
def platformExt (p : Platform) : String :=
  match p with
  | .windows => "dll"
  | .macos => "dylib"
  | .other => "so"

/-- The build-profile directory chosen by `make_lib_path` from
`cfg!(debug_assertions)`: `debug` or `release`. -/
def profileStr (debugAssertions : Bool) : String :=
  if debugAssertions then "debug" else "release"

/-- `shellapp::make_lib_path`: builds
`target/<profile>/<lib_name>.<extension>`. -/
def make_lib_path (p : Platform) (dbg : Bool) (lib_name : String) : String :=
  "target/" ++ profileStr dbg ++ "/" ++ lib_name ++ "." ++ platformExt p

/-- Civil Gregorian date (year, month, day) of a given number of days since
1970-01-01.  Models the external `time` crate's conversion from
`SystemTime` that `load_library` formats with
`"[year]-[month]-[day]_[hour]-[minute]-[second]"`. -/
def civilFromDays (days : Nat) : Nat × Nat × Nat :=
  let z := days + 719468
  let era := z / 146097
  let doe := z % 146097
  let yoe := (doe - doe / 1460 + doe / 36524 - doe / 146096) / 365
  let y := yoe + era * 400
  let doy := doe - (365 * yoe + yoe / 4 - yoe / 100)
  let mp := (5 * doy + 2) / 153
  let d := doy - (153 * mp + 2) / 5 + 1
  let m := if mp < 10 then mp + 3 else mp - 9
  (if m ≤ 2 then y + 1 else y, m, d)

/-- Inverse of `civilFromDays`: days since 1970-01-01 of a civil date. -/
def daysFromCivil (y m d : Nat) : Nat :=
  let yy := if m ≤ 2 then y - 1 else y
  let era := yy / 400
  let yoe := yy % 400
  let doy := (153 * (if 2 < m then m - 3 else m + 9) + 2) / 5 + d - 1
  let doe := yoe * 365 + yoe / 4 - yoe / 100 + doy
  era * 146097 + doe - 719468

/-- Two zero-padded decimal digits. -/
def pad2 (n : Nat) : List Char :=
  [Nat.digitChar (n / 10 % 10), Nat.digitChar (n % 10)]

/-- Four zero-padded decimal digits. -/
def pad4 (n : Nat) : List Char :=
  [Nat.digitChar (n / 1000 % 10), Nat.digitChar (n / 100 % 10),
   Nat.digitChar (n / 10 % 10), Nat.digitChar (n % 10)]

/-- Character list of the version suffix
`[year]-[month]-[day]_[hour]-[minute]-[second]` computed by `load_library`
from the artifact's modification timestamp.  Depends only on the whole
seconds: the format has second resolution. -/
def suffixChars (t : Timestamp) : List Char :=
  let c := civilFromDays (t.secs / 86400)
  let tod := t.secs % 86400
  pad4 c.1 ++ '-' :: pad2 c.2.1 ++ '-' :: pad2 c.2.2 ++
    '_' :: pad2 (tod / 3600) ++ '-' :: pad2 (tod % 3600 / 60) ++ '-' :: pad2 (tod % 60)

/-- The version suffix as a string (the `suffix` variable of
`load_library`). -/
def formatSuffix (t : Timestamp) : String := String.mk (suffixChars t)

/-- The path of the versioned copy written by `load_library`:
`make_lib_path` applied to `{name}_{suffix}`. -/
def versionedPath (p : Platform) (dbg : Bool) (name : String) (t : Timestamp) : String :=
  make_lib_path p dbg (name ++ "_" ++ formatSuffix t)

/-- Modelled from the spec: the artifact path convention
`<build-root>/<profile>/<module-name>.<platform-extension>` stated in §6,
to be compared with the source's `make_lib_path`. -/
def specArtifactPath (p : Platform) (dbg : Bool) (name : String) : String :=
  "target/" ++ profileStr dbg ++ "/" ++ name ++ "." ++ platformExt p

/-- Modelled from the spec: the versioned copy naming convention
`<build-root>/<profile>/<module-name>_<timestamp>.<platform-extension>`
stated in §6, to be compared with the source's copy path. -/
def specVersionedPath (p : Platform) (dbg : Bool) (name : String) (t : Timestamp) : String :=
  "target/" ++ profileStr dbg ++ "/" ++ name ++ "_" ++ formatSuffix t ++ "." ++ platformExt p

/-- The error taxonomy of `load_library` (each `return Err(...)` site). -/
inductive LoadError
  | notWindows
  | metadataUnavailable
  | timestampUnavailable
  | copyFailed
  | loadFailed
  | symbolNotFound (name : String)
  | constructionFailed
deriving DecidableEq

/-- `shellapp::LibInfo`: name, artifact path and entry-symbol names of the
dynamic core. -/
structure LibInfo where
  name : String
  path : String
  create_fn_name : String
  destroy_fn_name : String
deriving DecidableEq

/-- The environment a single load runs against: the host platform and the
outcome of each fallible step (filesystem metadata, timestamp, copy, OS
loader, the two symbol lookups, and whether the module's create entry
point returns null). -/
structure LoadEnv where
  platform : Platform
  metadataOk : Bool
  timestampOk : Bool
  mtime : Timestamp
  copyOk : Bool
  libLoadOk : Bool
  hasCreateSym : Bool
  hasDestroySym : Bool
  createNull : Bool
deriving DecidableEq

/-- `loadOk env` holds exactly when every step of `load_library` succeeds
under `env`. -/
def loadOk (env : LoadEnv) : Bool :=
  env.platform == .windows && env.metadataOk && env.timestampOk && env.copyOk &&
    env.libLoadOk && env.hasCreateSym && env.hasDestroySym && !env.createNull

/-- Observable events of a load/reload step, in the order they occur. -/
inductive Ev
  | readMetadata
  | copyFile (path : String)
  | libOpen (lib : Nat)
  | createInstance (lib inst : Nat) (st : AppState)
  | destroyInstance (inst : Nat)
  | libClose (lib : Nat)
deriving DecidableEq

/-- Whether an event is an invocation of a module instance destructor. -/
def isDestroyEv : Ev → Bool
  | .destroyInstance _ => true
  | _ => false

/-- The result of a successful `load_library`: the library handle, the
constructed instance handle, the presence of the destroy entry point
(`Option<DestroyFn>`), and the artifact's modification timestamp. -/
structure LoadedModule where
  lib : Nat
  inst : Nat
  hasDestroy : Bool
  mtime : Timestamp
deriving DecidableEq

/-- Process-wide mutable world: an allocation counter for fresh library and
instance handles, the heap of live core-instance states (instance handle
`0` is the null pointer, never allocated), and the list of versioned
copies written so far. -/
structure World where
  next : Nat
  heap : Nat → AppState
  files : List String

/-- `shellapp::load_library`, step for step: reject non-Windows hosts before
touching the filesystem; read metadata, then the modification timestamp;
derive the versioned copy path and copy the artifact; load the copy as a
dynamic image; resolve the create then the destroy symbol; invoke create
with the supplied state and fail on a null instance.  On the error paths
after a successful `Library::new`, Rust drops the library value, which
releases the handle (`Ev.libClose`).  Returns the result, the world after
the step, and the event trace. -/
def load_library (env : LoadEnv) (info : LibInfo) (dbg : Bool) (st : AppState)
    (w : World) : Except LoadError LoadedModule × World × List Ev :=
  if env.platform ≠ .windows then
    (.error .notWindows, w, [])
  else if !env.metadataOk then
    (.error .metadataUnavailable, w, [.readMetadata])
  else if !env.timestampOk then
    (.error .timestampUnavailable, w, [.readMetadata])
  else
    let p := versionedPath env.platform dbg info.name env.mtime
    if !env.copyOk then
      (.error .copyFailed, w, [.readMetadata])
    else
      let w1 : World := { w with files := w.files ++ [p] }
      if !env.libLoadOk then
        (.error .loadFailed, w1, [.readMetadata, .copyFile p])
      else
        let lib := w1.next + 1
        let w2 : World := { w1 with next := w1.next + 1 }
        if !env.hasCreateSym then
          (.error (.symbolNotFound info.create_fn_name), w2,
            [.readMetadata, .copyFile p, .libOpen lib, .libClose lib])
        else if !env.hasDestroySym then
          (.error (.symbolNotFound info.destroy_fn_name), w2,
            [.readMetadata, .copyFile p, .libOpen lib, .libClose lib])
        else if env.createNull then
          (.error .constructionFailed, w2,
            [.readMetadata, .copyFile p, .libOpen lib, .libClose lib])
        else
          let inst := w2.next + 1
          let w3 : World :=
            { w2 with
              next := w2.next + 1
              heap := fun i => if i = inst then st else w2.heap i }
          (.ok { lib := lib, inst := inst, hasDestroy := true, mtime := env.mtime }, w3,
            [.readMetadata, .copyFile p, .libOpen lib, .createInstance lib inst st])

/-- `shellapp::ShellApp`: the active instance handle, the optional destroy
entry point, the loaded library handle, the last-modified baseline, the
descriptor and the dummy-view flag. -/
structure ShellApp where
  app_interface : Nat
  destroy_fn : Bool
  lib : Nat
  last_modified : Timestamp
  lib_info : LibInfo
  use_dummy_view : Bool
deriving DecidableEq

/-- The environment one `update` step runs against: the load environment
(used by the Reload arm) and the modification time the Tick arm reads
(`None` when metadata or timestamp is unreadable). -/
structure StepEnv where
  load : LoadEnv
  tickRead : Option Timestamp

/-- Result of one `ShellApp::update` step: the shell, the world, the task
the step emits (`Task::done(msg)` or `Task::none`) and the event trace. -/
structure Step where
  shell : ShellApp
  world : World
  task : Option Msg
  evs : List Ev

/-- `ShellApp::update`.  Reload: read the current state from the active
instance, call `load_library`; on success replace the whole shell
(`*self = Self { .. }`), which drops the old shell: its `Drop` impl
invokes the destroy entry point on the old instance, after which the old
`Library` field is dropped and the old library handle released; the flag
`use_dummy_view` is reset to `false` only on this path.  On failure the
shell is left untouched.  Tick: if the artifact's modification time is
readable and strictly newer than the baseline, set the dummy-view flag
and emit `Task::done(Message::Reload)`; otherwise do nothing.  Every
other message is forwarded to the active instance. -/
def ShellApp.update (msg : Msg) (env : StepEnv) (dbg : Bool) (sh : ShellApp)
    (w : World) : Step :=
  match msg with
  | .Reload =>
    let current_state := w.heap sh.app_interface
    match load_library env.load sh.lib_info dbg current_state w with
    | (.ok lm, w', evs) =>
      { shell :=
          { app_interface := lm.inst
            destroy_fn := lm.hasDestroy
            lib := lm.lib
            last_modified := lm.mtime
            lib_info := sh.lib_info
            use_dummy_view := false }
        world := w'
        task := none
        evs := evs ++ [.destroyInstance sh.app_interface, .libClose sh.lib] }
    | (.error _, w', evs) =>
      { shell := sh, world := w', task := none, evs := evs }
  | .Tick =>
    match env.tickRead with
    | some m =>
      if sh.last_modified.ltb m then
        { shell := { sh with use_dummy_view := true }, world := w,
          task := some .Reload, evs := [] }
      else
        { shell := sh, world := w, task := none, evs := [] }
    | none => { shell := sh, world := w, task := none, evs := [] }
  | m =>
    { shell := sh
      world :=
        { w with
          heap := fun i =>
            if i = sh.app_interface then coreUpdate m (w.heap i) else w.heap i }
      task := none
      evs := [] }

/-- What `ShellApp::view` produces: either the empty placeholder container
or the active instance's view (which renders the counter). -/
inductive ViewOut
  | dummy
  | delegated (inst : Nat) (counter : Int)
deriving DecidableEq

/-- `ShellApp::view`: the empty placeholder while `use_dummy_view` is set,
otherwise delegation to the active instance's `view`. -/
def ShellApp.view (sh : ShellApp) (w : World) : ViewOut :=
  if sh.use_dummy_view then .dummy
  else .delegated sh.app_interface (w.heap sh.app_interface).counter

/-- Apply a sequence of messages through `ShellApp.update`, threading shell
and world (tasks emitted along the way are not re-entered). -/
def applyMsgs (msgs : List Msg) (env : StepEnv) (dbg : Bool) (sh : ShellApp)
    (w : World) : ShellApp × World :=
  match msgs with
  | [] => (sh, w)
  | m :: rest =>
    let s := ShellApp.update m env dbg sh w
    applyMsgs rest env dbg s.shell s.world

/-- `ShellApp::new`: the initial load of `app_core` with `counter = 0`; the
source panics (`.expect`) when it fails, modelled as `Except.error`. -/
def ShellApp.new (env : LoadEnv) (p : Platform) (dbg : Bool) (w : World) :
    Except LoadError (ShellApp × World × List Ev) :=
  let info : LibInfo :=
    { name := "app_core"
      path := make_lib_path p dbg "app_core"
      create_fn_name := "create_app"
      destroy_fn_name := "destroy_app" }
  match load_library env info dbg { counter := 0 } w with
  | (.ok lm, w', evs) =>
    .ok
      ({ app_interface := lm.inst
         destroy_fn := lm.hasDestroy
         lib := lm.lib
         last_modified := lm.mtime
         lib_info := info
         use_dummy_view := false }, w', evs)
  | (.error e, _, _) => .error e

/-! ### Calendar and path-format lemmas -/

set_option maxHeartbeats 8000000 in
/-- The two Hinnant inequalities for the year-of-era formula: the computed
year's first day-of-era is at most `doe`, and `doe` lies within 365 days
of it. -/
theorem hinnant_key (doe : Nat) (h : doe < 146097) :
    ∀ q ≤ 399, q = (doe - doe / 1460 + doe / 36524 - doe / 146096) / 365 →
      365 * q + q / 4 - q / 100 ≤ doe ∧ doe - (365 * q + q / 4 - q / 100) ≤ 365 := by
  intro q hq heq
  have h4 : q % 4 = 0 ∨ q % 4 = 1 ∨ q % 4 = 2 ∨ q % 4 = 3 := by omega
  have h100 : q / 100 = 0 ∨ q / 100 = 1 ∨ q / 100 = 2 ∨ q / 100 = 3 := by omega
  rcases h4 with h4|h4|h4|h4 <;> rcases h100 with h100|h100|h100|h100 <;> omega

set_option maxHeartbeats 8000000 in
/-- `daysFromCivil` is a left inverse of `civilFromDays`, so the civil date
determines the day count. -/
theorem daysFromCivil_civilFromDays (days : Nat) :
    daysFromCivil (civilFromDays days).1 (civilFromDays days).2.1
      (civilFromDays days).2.2 = days := by
  have hdoe : (days + 719468) % 146097 < 146097 := Nat.mod_lt _ (by norm_num)
  simp only [civilFromDays, daysFromCivil]
  set z := days + 719468 with hz
  set era := z / 146097 with hera
  set doe := z % 146097 with hdoeq
  set yoe := (doe - doe / 1460 + doe / 36524 - doe / 146096) / 365 with hyoe
  have h399 : yoe ≤ 399 := by omega
  obtain ⟨hdcle, hdoy365⟩ := hinnant_key doe hdoe yoe h399 hyoe
  set dc := 365 * yoe + yoe / 4 - yoe / 100 with hdc
  set doy := doe - dc with hdoy
  set mp := (5 * doy + 2) / 153 with hmp
  have hmp11 : mp ≤ 11 := by omega
  have hdmd : (153 * mp + 2) / 5 ≤ doy := by omega
  have hyd : (yoe + era * 400) / 400 = era := by omega
  have hym : (yoe + era * 400) % 400 = yoe := by omega
  by_cases hmplt : mp < 10
  · simp only [if_pos hmplt]
    rw [if_neg (by omega : ¬ (mp + 3 ≤ 2)), if_neg (by omega : ¬ (mp + 3 ≤ 2)),
      if_pos (by omega : 2 < mp + 3),
      (by omega : mp + 3 - 3 = mp), hyd, hym]
    omega
  · simp only [if_neg hmplt]
    rw [if_pos (by omega : mp - 9 ≤ 2), if_pos (by omega : mp - 9 ≤ 2),
      if_neg (by omega : ¬ (2 < mp - 9)),
      (by omega : mp - 9 + 9 = mp),
      (by omega : yoe + era * 400 + 1 - 1 = yoe + era * 400), hyd, hym]
    omega

set_option maxHeartbeats 8000000 in
/-- Bounds on the civil components for day counts up to 9999-12-31. -/
theorem civil_bounds (days : Nat) (h : days ≤ 2932896) :
    (civilFromDays days).1 ≤ 9999 ∧ (civilFromDays days).2.1 ≤ 99 ∧
      (civilFromDays days).2.2 ≤ 99 := by
  have hdoe : (days + 719468) % 146097 < 146097 := Nat.mod_lt _ (by norm_num)
  simp only [civilFromDays]
  set z := days + 719468 with hz
  set era := z / 146097 with hera
  set doe := z % 146097 with hdoeq
  set yoe := (doe - doe / 1460 + doe / 36524 - doe / 146096) / 365 with hyoe
  have h399 : yoe ≤ 399 := by omega
  obtain ⟨hdcle, hdoy365⟩ := hinnant_key doe hdoe yoe h399 hyoe
  set dc := 365 * yoe + yoe / 4 - yoe / 100 with hdc
  set doy := doe - dc with hdoy
  set mp := (5 * doy + 2) / 153 with hmp
  have hmp11 : mp ≤ 11 := by omega
  have hdmd : (153 * mp + 2) / 5 ≤ doy := by omega
  have hera24 : era ≤ 24 := by omega
  by_cases hmplt : mp < 10
  · simp only [if_pos hmplt]
    rw [if_neg (by omega : ¬ (mp + 3 ≤ 2))]
    refine ⟨by omega, by omega, by omega⟩
  · simp only [if_neg hmplt]
    rw [if_pos (by omega : mp - 9 ≤ 2)]
    refine ⟨by omega, by omega, by omega⟩

/-- `Nat.digitChar` is injective on single digits. -/
theorem digitChar_inj : ∀ a < 10, ∀ b < 10, Nat.digitChar a = Nat.digitChar b → a = b := by
  decide

set_option maxHeartbeats 8000000 in
/-- The formatted suffix determines the whole-second part of the
timestamp, for timestamps up to 9999-12-31T23:59:59. -/
theorem suffixChars_inj (t1 t2 : Timestamp) (h1 : t1.secs ≤ 253402300799)
    (h2 : t2.secs ≤ 253402300799) (h : suffixChars t1 = suffixChars t2) :
    t1.secs = t2.secs := by
  have hb1 := civil_bounds (t1.secs / 86400) (by omega)
  have hb2 := civil_bounds (t2.secs / 86400) (by omega)
  have hr1 := daysFromCivil_civilFromDays (t1.secs / 86400)
  have hr2 := daysFromCivil_civilFromDays (t2.secs / 86400)
  rcases hc1 : civilFromDays (t1.secs / 86400) with ⟨y1, m1, d1⟩
  rcases hc2 : civilFromDays (t2.secs / 86400) with ⟨y2, m2, d2⟩
  rw [hc1] at hb1 hr1
  rw [hc2] at hb2 hr2
  simp only at hb1 hb2 hr1 hr2
  obtain ⟨hy1, hm1, hd1⟩ := hb1
  obtain ⟨hy2, hm2, hd2⟩ := hb2
  simp only [suffixChars, hc1, hc2, pad2, pad4, List.cons_append, List.nil_append] at h
  simp only [List.cons.injEq] at h
  obtain ⟨e1, e2, e3, e4, _, e5, e6, _, e7, e8, _, e9, e10, _, e11, e12, _, e13, e14, _⟩ := h
  have g1 := digitChar_inj _ (by omega) _ (by omega) e1
  have g2 := digitChar_inj _ (by omega) _ (by omega) e2
  have g3 := digitChar_inj _ (by omega) _ (by omega) e3
  have g4 := digitChar_inj _ (by omega) _ (by omega) e4
  have g5 := digitChar_inj _ (by omega) _ (by omega) e5
  have g6 := digitChar_inj _ (by omega) _ (by omega) e6
  have g7 := digitChar_inj _ (by omega) _ (by omega) e7
  have g8 := digitChar_inj _ (by omega) _ (by omega) e8
  have g9 := digitChar_inj _ (by omega) _ (by omega) e9
  have g10 := digitChar_inj _ (by omega) _ (by omega) e10
  have g11 := digitChar_inj _ (by omega) _ (by omega) e11
  have g12 := digitChar_inj _ (by omega) _ (by omega) e12
  have g13 := digitChar_inj _ (by omega) _ (by omega) e13
  have g14 := digitChar_inj _ (by omega) _ (by omega) e14
  have hy : y1 = y2 := by omega
  have hm : m1 = m2 := by omega
  have hd : d1 = d2 := by omega
  have hdays : t1.secs / 86400 = t2.secs / 86400 := by
    rw [hy, hm, hd] at hr1
    omega
  omega

/-- The source copy path and the spec's versioned-copy naming agree. -/
theorem versionedPath_eq_spec (p : Platform) (dbg : Bool) (name : String) (t : Timestamp) :
    versionedPath p dbg name t = specVersionedPath p dbg name t := by
  simp only [versionedPath, make_lib_path, specVersionedPath, String.append_assoc]

/-- Equal versioned paths have equal suffix character lists. -/
theorem versionedPath_suffix_eq (p : Platform) (dbg : Bool) (name : String)
    (t1 t2 : Timestamp) (h : versionedPath p dbg name t1 = versionedPath p dbg name t2) :
    suffixChars t1 = suffixChars t2 := by
  have hd := congrArg String.data h
  simp only [versionedPath, make_lib_path, String.data_append, formatSuffix,
    List.append_assoc] at hd
  have h1 := List.append_cancel_left hd
  have h2 := List.append_cancel_left h1
  have h3 := List.append_cancel_left h2
  have h4 := List.append_cancel_left h3
  have h5 := List.append_cancel_left h4
  have h6 : suffixChars t1 ++ (".".data ++ (platformExt p).data)
      = suffixChars t2 ++ (".".data ++ (platformExt p).data) := by
    simpa using h5
  exact List.append_cancel_right h6

/-- Timestamps that differ in whole seconds produce distinct versioned copy
paths (within the second-resolution format's four-digit-year range). -/
theorem versionedPath_inj (p : Platform) (dbg : Bool) (name : String)
    (t1 t2 : Timestamp) (h1 : t1.secs ≤ 253402300799) (h2 : t2.secs ≤ 253402300799)
    (hne : t1.secs ≠ t2.secs) :
    versionedPath p dbg name t1 ≠ versionedPath p dbg name t2 := by
  intro hpath
  exact hne (suffixChars_inj t1 t2 h1 h2 (versionedPath_suffix_eq p dbg name t1 t2 hpath))


theorem load_library_ok (env : LoadEnv) (info : LibInfo) (dbg : Bool) (st : AppState)
    (w : World) (h : loadOk env = true) :
    load_library env info dbg st w =
      (.ok { lib := w.next + 1, inst := w.next + 1 + 1, hasDestroy := true, mtime := env.mtime },
       { next := w.next + 1 + 1
         heap := fun i => if i = w.next + 1 + 1 then st else w.heap i
         files := w.files ++ [versionedPath env.platform dbg info.name env.mtime] },
       [.readMetadata, .copyFile (versionedPath env.platform dbg info.name env.mtime),
        .libOpen (w.next + 1),
        .createInstance (w.next + 1) (w.next + 1 + 1) st]) := by
  simp only [loadOk, Bool.and_eq_true, beq_iff_eq, Bool.not_eq_true'] at h
  obtain ⟨⟨⟨⟨⟨⟨⟨hp, hm⟩, ht⟩, hc⟩, hl⟩, hcs⟩, hds⟩, hn⟩ := h
  simp [load_library, hp, hm, ht, hc, hl, hcs, hds, hn]

theorem load_library_not_ok_inv (env : LoadEnv) (info : LibInfo) (dbg : Bool)
    (st : AppState) (w : World) (h : loadOk env = false) :
    (∃ e, (load_library env info dbg st w).1 = .error e) ∧
      (load_library env info dbg st w).2.1.heap = w.heap ∧
      List.countP isDestroyEv (load_library env info dbg st w).2.2 = 0 := by
  by_cases h1 : env.platform = Platform.windows
  · by_cases h2 : env.metadataOk = true
    · by_cases h3 : env.timestampOk = true
      · by_cases h4 : env.copyOk = true
        · by_cases h5 : env.libLoadOk = true
          · by_cases h6 : env.hasCreateSym = true
            · by_cases h7 : env.hasDestroySym = true
              · have h8 : env.createNull = true := by
                  rcases hcn : env.createNull
                  · simp [loadOk, h1, h2, h3, h4, h5, h6, h7, hcn] at h
                  · rfl
                refine ⟨⟨.constructionFailed, ?_⟩, ?_, ?_⟩ <;>
                  simp [load_library, h1, h2, h3, h4, h5, h6, h7, h8, isDestroyEv]
              · simp only [Bool.not_eq_true] at h7
                refine ⟨⟨.symbolNotFound info.destroy_fn_name, ?_⟩, ?_, ?_⟩ <;>
                  simp [load_library, h1, h2, h3, h4, h5, h6, h7, isDestroyEv]
            · simp only [Bool.not_eq_true] at h6
              refine ⟨⟨.symbolNotFound info.create_fn_name, ?_⟩, ?_, ?_⟩ <;>
                simp [load_library, h1, h2, h3, h4, h5, h6, isDestroyEv]
          · simp only [Bool.not_eq_true] at h5
            refine ⟨⟨.loadFailed, ?_⟩, ?_, ?_⟩ <;>
              simp [load_library, h1, h2, h3, h4, h5, isDestroyEv]
        · simp only [Bool.not_eq_true] at h4
          refine ⟨⟨.copyFailed, ?_⟩, ?_, ?_⟩ <;>
            simp [load_library, h1, h2, h3, h4, isDestroyEv]
      · simp only [Bool.not_eq_true] at h3
        refine ⟨⟨.timestampUnavailable, ?_⟩, ?_, ?_⟩ <;>
          simp [load_library, h1, h2, h3, isDestroyEv]
    · simp only [Bool.not_eq_true] at h2
      refine ⟨⟨.metadataUnavailable, ?_⟩, ?_, ?_⟩ <;>
        simp [load_library, h1, h2, isDestroyEv]
  · refine ⟨⟨.notWindows, ?_⟩, ?_, ?_⟩ <;> simp [load_library, h1, isDestroyEv]

theorem loadOk_false_of_error (env : LoadEnv) (info : LibInfo) (dbg : Bool)
    (st : AppState) (w : World) (e : LoadError)
    (h : (load_library env info dbg st w).1 = .error e) : loadOk env = false := by
  rcases hok : loadOk env
  · rfl
  · rw [load_library_ok env info dbg st w hok] at h
    simp at h

theorem update_reload_ok (env : StepEnv) (dbg : Bool) (sh : ShellApp) (w : World)
    (h : loadOk env.load = true) :
    ShellApp.update .Reload env dbg sh w =
      { shell :=
          { app_interface := w.next + 1 + 1
            destroy_fn := true
            lib := w.next + 1
            last_modified := env.load.mtime
            lib_info := sh.lib_info
            use_dummy_view := false }
        world :=
          { next := w.next + 1 + 1
            heap := fun i => if i = w.next + 1 + 1 then w.heap sh.app_interface else w.heap i
            files := w.files ++ [versionedPath env.load.platform dbg sh.lib_info.name env.load.mtime] }
        task := none
        evs :=
          [.readMetadata,
           .copyFile (versionedPath env.load.platform dbg sh.lib_info.name env.load.mtime),
           .libOpen (w.next + 1),
           .createInstance (w.next + 1) (w.next + 1 + 1) (w.heap sh.app_interface),
           .destroyInstance sh.app_interface, .libClose sh.lib] } := by
  simp [ShellApp.update, load_library_ok env.load sh.lib_info dbg (w.heap sh.app_interface) w h]

theorem update_reload_not_ok (env : StepEnv) (dbg : Bool) (sh : ShellApp) (w : World)
    (h : loadOk env.load = false) :
    (ShellApp.update .Reload env dbg sh w).shell = sh ∧
      (ShellApp.update .Reload env dbg sh w).world.heap = w.heap ∧
      (ShellApp.update .Reload env dbg sh w).task = none ∧
      List.countP isDestroyEv (ShellApp.update .Reload env dbg sh w).evs = 0 := by
  obtain ⟨⟨e, he⟩, hh, hc⟩ :=
    load_library_not_ok_inv env.load sh.lib_info dbg (w.heap sh.app_interface) w h
  rcases hres : load_library env.load sh.lib_info dbg (w.heap sh.app_interface) w
    with ⟨res, w', evs⟩
  rw [hres] at he hh hc
  simp only at he hh hc
  subst he
  simp [ShellApp.update, hres, hh, hc]

theorem update_tick_stale (env : StepEnv) (dbg : Bool) (sh : ShellApp) (w : World)
    (m : Timestamp) (hr : env.tickRead = some m) (h : sh.last_modified.ltb m = false) :
    ShellApp.update .Tick env dbg sh w =
      { shell := sh, world := w, task := none, evs := [] } := by
  simp [ShellApp.update, hr, h]

theorem update_tick_none (env : StepEnv) (dbg : Bool) (sh : ShellApp) (w : World)
    (hr : env.tickRead = none) :
    ShellApp.update .Tick env dbg sh w =
      { shell := sh, world := w, task := none, evs := [] } := by
  simp [ShellApp.update, hr]

theorem update_tick_fresh (env : StepEnv) (dbg : Bool) (sh : ShellApp) (w : World)
    (m : Timestamp) (hr : env.tickRead = some m) (h : sh.last_modified.ltb m = true) :
    ShellApp.update .Tick env dbg sh w =
      { shell := { sh with use_dummy_view := true }, world := w,
        task := some .Reload, evs := [] } := by
  simp [ShellApp.update, hr, h]

theorem update_forward (env : StepEnv) (dbg : Bool) (sh : ShellApp) (w : World)
    (msg : Msg) (hmsg : msg = .Increment ∨ msg = .Decrement) :
    ShellApp.update msg env dbg sh w =
      { shell := sh
        world :=
          { w with
            heap := fun i =>
              if i = sh.app_interface then coreUpdate msg (w.heap i) else w.heap i }
        task := none
        evs := [] } := by
  rcases hmsg with h|h <;> subst h <;> rfl

theorem Timestamp.ltb_irrefl (t : Timestamp) : t.ltb t = false := by
  simp [Timestamp.ltb]

def sampleHeap : Nat → AppState := fun _ => { counter := 0 }

def heap3 : Nat → AppState := fun _ => { counter := 3 }

def w0 : World := { next := 0, heap := sampleHeap, files := [] }

def w3 : World := { next := 2, heap := heap3, files := [] }

def info0 : LibInfo :=
  { name := "app_core"
    path := "target/debug/app_core.dll"
    create_fn_name := "create_app"
    destroy_fn_name := "destroy_app" }

def envOk : LoadEnv :=
  { platform := .windows
    metadataOk := true
    timestampOk := true
    mtime := { secs := 1, nanos := 0 }
    copyOk := true
    libLoadOk := true
    hasCreateSym := true
    hasDestroySym := true
    createNull := false }

def envNoDestroy : LoadEnv := { envOk with hasDestroySym := false }

def envNull : LoadEnv := { envOk with createNull := true }

def envOther : LoadEnv := { envOk with platform := .other }

def shell0 : ShellApp :=
  { app_interface := 2
    destroy_fn := true
    lib := 1
    last_modified := { secs := 0, nanos := 0 }
    lib_info := info0
    use_dummy_view := false }

def shellD : ShellApp := { shell0 with use_dummy_view := true }

def stepEnvOk : StepEnv := { load := envOk, tickRead := some { secs := 1, nanos := 0 } }

def stepEnvNoDestroy : StepEnv :=
  { load := envNoDestroy, tickRead := some { secs := 1, nanos := 0 } }

def stepEnvNull : StepEnv := { load := envNull, tickRead := some { secs := 1, nanos := 0 } }

def stepEnvStale : StepEnv := { load := envOk, tickRead := some { secs := 0, nanos := 0 } }

/-- Claim C1. -/
theorem claim_C1 (msgs : List Msg) (env : StepEnv) (dbg : Bool) (sh : ShellApp) (w : World)
    (hmsgs : ∀ m ∈ msgs, m = Msg.Increment ∨ m = Msg.Decrement)
    (hok : loadOk env.load = true) :
    (ShellApp.update .Reload env dbg (applyMsgs msgs env dbg sh w).1
        (applyMsgs msgs env dbg sh w).2).world.heap
      (ShellApp.update .Reload env dbg (applyMsgs msgs env dbg sh w).1
        (applyMsgs msgs env dbg sh w).2).shell.app_interface
      = (applyMsgs msgs env dbg sh w).2.heap (applyMsgs msgs env dbg sh w).1.app_interface ∧
    Ev.createInstance
        (ShellApp.update .Reload env dbg (applyMsgs msgs env dbg sh w).1
          (applyMsgs msgs env dbg sh w).2).shell.lib
        (ShellApp.update .Reload env dbg (applyMsgs msgs env dbg sh w).1
          (applyMsgs msgs env dbg sh w).2).shell.app_interface
        ((applyMsgs msgs env dbg sh w).2.heap (applyMsgs msgs env dbg sh w).1.app_interface)
      ∈ (ShellApp.update .Reload env dbg (applyMsgs msgs env dbg sh w).1
          (applyMsgs msgs env dbg sh w).2).evs := by
  rcases hc : applyMsgs msgs env dbg sh w with ⟨sh1, w1⟩
  rw [update_reload_ok env dbg sh1 w1 hok]
  constructor
  · simp
  · simp

theorem claim_C1_witness :
    (∀ m ∈ ([.Increment, .Increment, .Increment] : List Msg),
      m = Msg.Increment ∨ m = Msg.Decrement) ∧
    loadOk stepEnvOk.load = true ∧
    (ShellApp.update .Reload stepEnvOk true
        (applyMsgs [.Increment, .Increment, .Increment] stepEnvOk true shell0 w0).1
        (applyMsgs [.Increment, .Increment, .Increment] stepEnvOk true shell0 w0).2).world.heap
      (ShellApp.update .Reload stepEnvOk true
        (applyMsgs [.Increment, .Increment, .Increment] stepEnvOk true shell0 w0).1
        (applyMsgs [.Increment, .Increment, .Increment] stepEnvOk true shell0 w0).2).shell.app_interface
      = (applyMsgs [.Increment, .Increment, .Increment] stepEnvOk true shell0 w0).2.heap
          (applyMsgs [.Increment, .Increment, .Increment] stepEnvOk true shell0 w0).1.app_interface ∧
    ((applyMsgs [.Increment, .Increment, .Increment] stepEnvOk true shell0 w0).2.heap
      (applyMsgs [.Increment, .Increment, .Increment] stepEnvOk true shell0 w0).1.app_interface).counter = 3 :=
  ⟨by decide, by decide,
    (claim_C1 [.Increment, .Increment, .Increment] stepEnvOk true shell0 w0
      (by decide) (by decide)).1,
    by decide⟩

/-- Claim C2. -/
theorem claim_C2 (env : StepEnv) (dbg : Bool) (sh : ShellApp) (w : World)
    (hfail : loadOk env.load = false) :
    (ShellApp.update .Reload env dbg sh w).shell = sh ∧
    (ShellApp.update .Reload env dbg sh w).world.heap = w.heap ∧
    ∀ env2 : StepEnv,
      (ShellApp.update .Decrement env2 dbg (ShellApp.update .Reload env dbg sh w).shell
          (ShellApp.update .Reload env dbg sh w).world).world.heap sh.app_interface
        = coreUpdate .Decrement (w.heap sh.app_interface) := by
  obtain ⟨hsh, hheap, htask, hcnt⟩ := update_reload_not_ok env dbg sh w hfail
  refine ⟨hsh, hheap, ?_⟩
  intro env2
  rw [hsh, update_forward env2 dbg sh _ .Decrement (Or.inr rfl)]
  simp [hheap]

theorem claim_C2_witness :
    loadOk stepEnvNoDestroy.load = false ∧
    ((ShellApp.update .Decrement stepEnvNoDestroy true
        (ShellApp.update .Reload stepEnvNoDestroy true shell0 w3).shell
        (ShellApp.update .Reload stepEnvNoDestroy true shell0 w3).world).world.heap
      shell0.app_interface).counter = 2 :=
  ⟨by decide,
    by
      rw [(claim_C2 stepEnvNoDestroy true shell0 w3 (by decide)).2.2 stepEnvNoDestroy]
      decide⟩

/-- Claim C3 counterexample. -/
theorem claim_C3_counterexample :
    (ShellApp.update .Tick stepEnvNull true shell0 w0).task = some .Reload ∧
    (ShellApp.update .Tick stepEnvNull true shell0 w0).shell.use_dummy_view = true ∧
    ShellApp.view
        (ShellApp.update .Reload stepEnvNull true
          (ShellApp.update .Tick stepEnvNull true shell0 w0).shell
          (ShellApp.update .Tick stepEnvNull true shell0 w0).world).shell
        (ShellApp.update .Reload stepEnvNull true
          (ShellApp.update .Tick stepEnvNull true shell0 w0).shell
          (ShellApp.update .Tick stepEnvNull true shell0 w0).world).world
      = .dummy := by
  refine ⟨rfl, rfl, ?_⟩
  decide

/-- Claim C3 amended. -/
theorem claim_C3_amended (env : StepEnv) (dbg : Bool) (sh : ShellApp) (w : World)
    (hfail : loadOk env.load = false) (hdummy : sh.use_dummy_view = true) :
    ShellApp.view (ShellApp.update .Reload env dbg sh w).shell
        (ShellApp.update .Reload env dbg sh w).world = .dummy ∧
    ∀ env2 : StepEnv, loadOk env2.load = true →
      (ShellApp.update .Reload env2 dbg sh w).shell.use_dummy_view = false := by
  obtain ⟨hsh, hheap, htask, hcnt⟩ := update_reload_not_ok env dbg sh w hfail
  constructor
  · rw [hsh]
    simp [ShellApp.view, hdummy]
  · intro env2 hok
    rw [update_reload_ok env2 dbg sh w hok]

theorem claim_C3_witness :
    loadOk stepEnvNull.load = false ∧
    shellD.use_dummy_view = true ∧
    ShellApp.view (ShellApp.update .Reload stepEnvNull true shellD w0).shell
        (ShellApp.update .Reload stepEnvNull true shellD w0).world = .dummy ∧
    (ShellApp.update .Reload stepEnvOk true shellD w0).shell.use_dummy_view = false :=
  ⟨by decide, rfl,
    (claim_C3_amended stepEnvNull true shellD w0 (by decide) rfl).1,
    (claim_C3_amended stepEnvNull true shellD w0 (by decide) rfl).2 stepEnvOk (by decide)⟩

/-- Claim C4 counterexample. -/
theorem claim_C4_counterexample :
    (ShellApp.update .Tick stepEnvNoDestroy true shell0 w0).task = some .Reload ∧
    (ShellApp.update .Reload stepEnvNoDestroy true
        (ShellApp.update .Tick stepEnvNoDestroy true shell0 w0).shell
        (ShellApp.update .Tick stepEnvNoDestroy true shell0 w0).world).shell.last_modified
      = shell0.last_modified ∧
    (ShellApp.update .Tick stepEnvNoDestroy true
        (ShellApp.update .Reload stepEnvNoDestroy true
          (ShellApp.update .Tick stepEnvNoDestroy true shell0 w0).shell
          (ShellApp.update .Tick stepEnvNoDestroy true shell0 w0).world).shell
        (ShellApp.update .Reload stepEnvNoDestroy true
          (ShellApp.update .Tick stepEnvNoDestroy true shell0 w0).shell
          (ShellApp.update .Tick stepEnvNoDestroy true shell0 w0).world).world).task
      = some .Reload := by
  refine ⟨rfl, ?_, ?_⟩ <;> decide

/-- Claim C4 amended. -/
theorem claim_C4 (env : StepEnv) (dbg : Bool) (sh : ShellApp) (w : World) :
    (∀ m, env.tickRead = some m → sh.last_modified.ltb m = false →
      ShellApp.update .Tick env dbg sh w =
        { shell := sh, world := w, task := none, evs := [] }) ∧
    (env.tickRead = none →
      ShellApp.update .Tick env dbg sh w =
        { shell := sh, world := w, task := none, evs := [] }) ∧
    (loadOk env.load = true → ∀ env2 : StepEnv, env2.tickRead = some env.load.mtime →
      (ShellApp.update .Tick env2 dbg (ShellApp.update .Reload env dbg sh w).shell
        (ShellApp.update .Reload env dbg sh w).world).task = none) := by
  refine ⟨fun m hr h => update_tick_stale env dbg sh w m hr h,
    fun hr => update_tick_none env dbg sh w hr, ?_⟩
  intro hok env2 hr
  rw [update_reload_ok env dbg sh w hok]
  rw [update_tick_stale env2 dbg _ _ env.load.mtime hr (Timestamp.ltb_irrefl _)]

theorem claim_C4_witness :
    shell0.last_modified.ltb { secs := 0, nanos := 0 } = false ∧
    (ShellApp.update .Tick stepEnvStale true shell0 w0).task = none ∧
    loadOk stepEnvOk.load = true ∧
    (ShellApp.update .Tick stepEnvOk true
        (ShellApp.update .Reload stepEnvOk true shell0 w0).shell
        (ShellApp.update .Reload stepEnvOk true shell0 w0).world).task = none :=
  ⟨by decide,
    by rw [(claim_C4 stepEnvStale true shell0 w0).1 { secs := 0, nanos := 0 } rfl (by decide)],
    by decide,
    (claim_C4 stepEnvOk true shell0 w0).2.2 (by decide) stepEnvOk rfl⟩

/-- Claim C5. -/
theorem claim_C5 (env : StepEnv) (dbg : Bool) (sh : ShellApp) (w : World)
    (hok : loadOk env.load = true) :
    List.countP isDestroyEv (ShellApp.update .Reload env dbg sh w).evs = 1 ∧
    ((ShellApp.update .Reload env dbg sh w).evs.get? 3 =
        some (.createInstance (w.next + 1) (w.next + 1 + 1) (w.heap sh.app_interface)) ∧
      (ShellApp.update .Reload env dbg sh w).evs.get? 4 =
        some (.destroyInstance sh.app_interface) ∧
      (ShellApp.update .Reload env dbg sh w).evs.get? 5 = some (.libClose sh.lib) ∧
      (ShellApp.update .Reload env dbg sh w).evs.length = 6) ∧
    ∀ env2 : StepEnv, loadOk env2.load = false →
      List.countP isDestroyEv (ShellApp.update .Reload env2 dbg sh w).evs = 0 := by
  rw [update_reload_ok env dbg sh w hok]
  refine ⟨rfl, ⟨rfl, rfl, rfl, rfl⟩, ?_⟩
  intro env2 h2
  exact (update_reload_not_ok env2 dbg sh w h2).2.2.2

theorem claim_C5_witness :
    loadOk stepEnvOk.load = true ∧
    loadOk stepEnvNoDestroy.load = false ∧
    List.countP isDestroyEv (ShellApp.update .Reload stepEnvOk true shell0 w0).evs = 1 ∧
    List.countP isDestroyEv (ShellApp.update .Reload stepEnvNoDestroy true shell0 w0).evs = 0 :=
  ⟨by decide, by decide,
    (claim_C5 stepEnvOk true shell0 w0 (by decide)).1,
    (claim_C5 stepEnvOk true shell0 w0 (by decide)).2.2 stepEnvNoDestroy (by decide)⟩

/-- Claim C6 counterexample. -/
theorem claim_C6_counterexample :
    ({ secs := 0, nanos := 0 } : Timestamp) ≠ { secs := 0, nanos := 999999999 } ∧
    versionedPath .windows true "app_core" { secs := 0, nanos := 0 } =
      versionedPath .windows true "app_core" { secs := 0, nanos := 999999999 } :=
  ⟨by decide, rfl⟩

/-- Claim C6 amended. -/
theorem claim_C6 (p : Platform) (dbg : Bool) (name : String) (t1 t2 : Timestamp)
    (h1 : t1.secs ≤ 253402300799) (h2 : t2.secs ≤ 253402300799)
    (hne : t1.secs ≠ t2.secs) :
    versionedPath p dbg name t1 ≠ versionedPath p dbg name t2 ∧
    versionedPath p dbg name t1 = make_lib_path p dbg (name ++ "_" ++ formatSuffix t1) :=
  ⟨versionedPath_inj p dbg name t1 t2 h1 h2 hne, rfl⟩

theorem claim_C6_witness :
    (({ secs := 0, nanos := 0 } : Timestamp).secs ≤ 253402300799) ∧
    (({ secs := 1, nanos := 0 } : Timestamp).secs ≤ 253402300799) ∧
    (({ secs := 0, nanos := 0 } : Timestamp).secs ≠ ({ secs := 1, nanos := 0 } : Timestamp).secs) ∧
    versionedPath .windows true "app_core" { secs := 0, nanos := 0 } ≠
      versionedPath .windows true "app_core" { secs := 1, nanos := 0 } :=
  ⟨by decide, by decide, by decide,
    (claim_C6 .windows true "app_core" { secs := 0, nanos := 0 } { secs := 1, nanos := 0 }
      (by decide) (by decide) (by decide)).1⟩

/-- Claim C7. -/
theorem claim_C7 (env : LoadEnv) (info : LibInfo) (dbg : Bool) (st : AppState) (w : World) :
    (loadOk env = false → ∃ e, (load_library env info dbg st w).1 = .error e) ∧
    (env.platform = .windows → env.metadataOk = true → env.timestampOk = true →
      env.copyOk = true → env.libLoadOk = true → env.hasCreateSym = true →
      env.hasDestroySym = true → env.createNull = true →
      (load_library env info dbg st w).1 = .error .constructionFailed) ∧
    (∀ lm, (load_library env info dbg st w).1 = .ok lm →
      lm.lib = w.next + 1 ∧ lm.inst = w.next + 1 + 1 ∧ lm.inst ≠ 0 ∧
        lm.hasDestroy = true ∧ lm.mtime = env.mtime) ∧
    (∀ e, (load_library env info dbg st w).1 = .error e → env.platform = .windows →
      env.metadataOk = true → env.timestampOk = true → env.copyOk = true →
      versionedPath env.platform dbg info.name env.mtime ∈
        (load_library env info dbg st w).2.1.files) := by
  refine ⟨fun h => (load_library_not_ok_inv env info dbg st w h).1, ?_, ?_, ?_⟩
  · intro h1 h2 h3 h4 h5 h6 h7 h8
    simp [load_library, h1, h2, h3, h4, h5, h6, h7, h8]
  · intro lm hok
    have hl : loadOk env = true := by
      rcases h' : loadOk env
      · obtain ⟨e, he⟩ := (load_library_not_ok_inv env info dbg st w h').1
        rw [he] at hok
        simp at hok
      · rfl
    rw [load_library_ok env info dbg st w hl] at hok
    simp only [Except.ok.injEq] at hok
    subst hok
    exact ⟨rfl, rfl, by simp, rfl, rfl⟩
  · intro e he h1 h2 h3 h4
    by_cases h5 : env.libLoadOk = true
    · by_cases h6 : env.hasCreateSym = true
      · by_cases h7 : env.hasDestroySym = true
        · by_cases h8 : env.createNull = true
          · simp [load_library, h1, h2, h3, h4, h5, h6, h7, h8]
          · exfalso
            have hl : loadOk env = true := by
              simp [loadOk, h1, h2, h3, h4, h5, h6, h7]
              rcases hcn : env.createNull
              · rfl
              · exact absurd hcn h8
            rw [load_library_ok env info dbg st w hl] at he
            simp at he
        · simp only [Bool.not_eq_true] at h7
          simp [load_library, h1, h2, h3, h4, h5, h6, h7]
      · simp only [Bool.not_eq_true] at h6
        simp [load_library, h1, h2, h3, h4, h5, h6]
    · simp only [Bool.not_eq_true] at h5
      simp [load_library, h1, h2, h3, h4, h5]

theorem claim_C7_witness :
    (load_library envNull info0 true { counter := 0 } w0).1 = .error .constructionFailed ∧
    versionedPath Platform.windows true "app_core" { secs := 1, nanos := 0 } ∈
      (load_library envNull info0 true { counter := 0 } w0).2.1.files :=
  ⟨(claim_C7 envNull info0 true { counter := 0 } w0).2.1 rfl rfl rfl rfl rfl rfl rfl rfl,
    (claim_C7 envNull info0 true { counter := 0 } w0).2.2.2 .constructionFailed
      ((claim_C7 envNull info0 true { counter := 0 } w0).2.1 rfl rfl rfl rfl rfl rfl rfl rfl)
      rfl rfl rfl rfl⟩

/-- Claim C8. -/
theorem claim_C8 (p : Platform) (dbg : Bool) (name : String) (t t' : Timestamp) :
    make_lib_path p dbg name = specArtifactPath p dbg name ∧
    versionedPath p dbg name t = specVersionedPath p dbg name t ∧
    profileStr true = "debug" ∧ profileStr false = "release" ∧
    platformExt .windows = "dll" ∧ platformExt .macos = "dylib" ∧
    platformExt .other = "so" ∧
    formatSuffix { secs := 0, nanos := 0 } = "1970-01-01_00-00-00" ∧
    (t.secs = t'.secs → formatSuffix t = formatSuffix t') := by
  refine ⟨rfl, versionedPath_eq_spec p dbg name t, rfl, rfl, rfl, rfl, rfl, by decide, ?_⟩
  intro h
  simp [formatSuffix, suffixChars, h]

theorem claim_C8_witness :
    (({ secs := 5, nanos := 1 } : Timestamp).secs = ({ secs := 5, nanos := 2 } : Timestamp).secs) ∧
    formatSuffix { secs := 5, nanos := 1 } = formatSuffix { secs := 5, nanos := 2 } :=
  ⟨rfl, (claim_C8 .windows true "app_core" { secs := 5, nanos := 1 }
    { secs := 5, nanos := 2 }).2.2.2.2.2.2.2.2 rfl⟩

/-- Claim C9. -/
theorem claim_C9 (env : LoadEnv) (info : LibInfo) (dbg : Bool) (st : AppState)
    (w : World) (p : Platform) (w2 : World) (hp : env.platform ≠ .windows) :
    load_library env info dbg st w = (.error .notWindows, w, []) ∧
      ShellApp.new env p dbg w2 = .error .notWindows := by
  constructor
  · simp [load_library, hp]
  · simp [ShellApp.new, load_library, hp]

theorem claim_C9_witness :
    (envOther.platform ≠ Platform.windows) ∧
    load_library envOther info0 true { counter := 0 } w0 = (.error .notWindows, w0, []) ∧
    ShellApp.new envOther Platform.other true w0 = .error .notWindows :=
  ⟨by decide,
    (claim_C9 envOther info0 true { counter := 0 } w0 Platform.other w0 (by decide)).1,
    (claim_C9 envOther info0 true { counter := 0 } w0 Platform.other w0 (by decide)).2⟩

/-- Claim C10. -/
theorem claim_C10 (heap : Nat → Option AppState) : destroy_app 0 heap = heap := by
  simp [destroy_app]

end HotReload
